import Mathlib

/-!
Shallow embedding of the LLoms chat client (src/main.go) orchestration core:
the conversation store, the history window selector, the tool invocation
gate, the chat turn executor and the session loop step, together with the
configuration override helpers. External collaborators (the chat backend,
the MCP tool transport, the environment, the id clock) are parameters:
their outcomes are supplied as explicit values or functions.
-/

/-- Role constants (src/main.go lines 22-28). -/
def RoleSystem : String := "system"

def RoleUser : String := "user"

def RoleAssistant : String := "assistant"

/-- The conversation-window bound constant `MaxConversationMessages` (src/main.go line 26). -/
def MaxConversationMessages : Int := 4

/-- A chat message: role plus content (mirrors `llm.Message`). -/
structure Message where
  role : String
  content : String
deriving DecidableEq, Repr

/-- Modelled from the spec: the Conversation Store is `history.MemoryMessages`
of the parakeet library, whose code is not part of this repository's sources.
Per the spec (§4.1), `save` appends to the log and fails with a storage error
when the identifier already exists, and `all` returns every stored message in
insertion order. We therefore model the store as the insertion-ordered list of
(identifier, message) pairs. -/
abbrev MemoryMessages := List (String × Message)

/-- Whether an identifier is already present in the store. -/
def hasId (store : MemoryMessages) (id : String) : Bool :=
  store.any fun p => p.1 = id

/-- Modelled from the spec: `SaveMessage` appends one message under a fresh
identifier; a duplicate identifier is a storage error. -/
def SaveMessage (store : MemoryMessages) (id : String) (msg : Message) :
    Except String MemoryMessages :=
  if hasId store id then Except.error "message id already exists"
  else Except.ok (store ++ [(id, msg)])

/-- Modelled from the spec: `GetAllMessages` returns every stored message in
insertion order. -/
def GetAllMessages (store : MemoryMessages) : List Message :=
  store.map Prod.snd

/-- Saving a sequence of messages one after the other (each call is one
`conversation.SaveMessage` as in src/main.go lines 161, 229, 306, 314, 346). -/
def saveAll (store : MemoryMessages) (entries : List (String × Message)) :
    Except String MemoryMessages :=
  match entries with
  | [] => Except.ok store
  | (id, msg) :: rest =>
    match SaveMessage store id msg with
    | Except.error e => Except.error e
    | Except.ok s => saveAll s rest

/-- `getLastMessages` (src/main.go lines 131-139), with the bound
`MaxConversationMessages` generalised to a parameter: negative bound returns
everything, a history no longer than the bound is returned whole, otherwise
the last `maxMessages` entries (`messages[len(messages)-MaxConversationMessages:]`). -/
def getLastMessages (maxMessages : Int) (messages : List Message) : List Message :=
  if maxMessages < 0 then messages
  else if (messages.length : Int) ≤ maxMessages then messages
  else messages.drop (messages.length - maxMessages.toNat)

/-- The window selector: one synthetic system message built from the configured
prompt, followed by the bounded tail of the history (src/main.go lines 242-246,
with the bound as a parameter). -/
def selectWindow (systemPrompt : String) (limit : Int) (allMessages : List Message) :
    List Message :=
  { role := RoleSystem, content := systemPrompt } :: getLastMessages limit allMessages

/-- The window actually built each turn, at the constant bound (src/main.go
lines 242-246). -/
def buildWindow (systemPrompt : String) (allMessages : List Message) : List Message :=
  selectWindow systemPrompt MaxConversationMessages allMessages

/-- A tool's function descriptor (mirrors `llm.Tool.Function`). -/
structure ToolFunction where
  name : String
deriving DecidableEq, Repr

/-- A tool descriptor (mirrors `llm.Tool`). -/
structure Tool where
  function : ToolFunction
deriving DecidableEq, Repr

/-- `toolExists` (src/main.go lines 141-148): linear scan of the tool set by
function name. -/
def toolExists (toolName : String) (tools : List Tool) : Bool :=
  tools.any fun tool => tool.function.name = toolName

/-- A proposed tool call (mirrors `answer.Message.ToolCalls` entries). -/
structure ToolCall where
  functionName : String
  arguments : String
deriving DecidableEq, Repr

/-- External outcomes seen by the tool invocation gate in one turn:
the tools-model chat request (src/main.go line 279, abstracted to its error or
its list of proposed tool calls), the MCP tool invocation (line 293), and the
identifier/storage outcomes of the two tool-result saves (lines 306, 314).
`Except.error` on a save slot models a storage failure reported by the store. -/
structure GateEnv where
  toolsAnswer : Except String (List ToolCall)
  callTool : String → String → Except String String
  saveAckId : Except String String
  saveResultId : Except String String

/-- Result of the tool invocation gate: the (possibly augmented) window, the
(possibly extended) store, the window that was sent to the tools model (none
when no tools are configured), and the warnings printed. -/
structure GateOutcome where
  messages : List Message
  store : MemoryMessages
  toolsRequest : Option (List Message)
  warnings : List String
deriving Repr

/-- A fallible identifier supply combined with the store append: `Except.ok id`
models `generateMsgID` (src/main.go line 127) producing `id`, after which
`SaveMessage` may still fail on a duplicate; `Except.error` models a storage
failure. -/
def trySave (store : MemoryMessages) (idResult : Except String String) (msg : Message) :
    Except String MemoryMessages :=
  match idResult with
  | Except.error e => Except.error e
  | Except.ok id => SaveMessage store id msg

/-- The tool invocation gate (src/main.go lines 258-324). When tools are
configured it sends the window to the tools model; on request failure, an
unknown first tool name, or a failed invocation it warns and leaves window and
store untouched. On success it appends the acknowledgment and the raw result
to the window and saves both to the store, a save failure being only a
warning (lines 310-312, 318-320). -/
def toolGate (tools : List Tool) (env : GateEnv) (store : MemoryMessages)
    (messages : List Message) : GateOutcome :=
  if 0 < tools.length then
    match env.toolsAnswer with
    | Except.error e =>
      { messages := messages, store := store, toolsRequest := some messages,
        warnings := ["Tools check failed: " ++ e] }
    | Except.ok toolCalls =>
      match toolCalls with
      | [] =>
        { messages := messages, store := store, toolsRequest := some messages,
          warnings := [] }
      | toolCall :: _ =>
        if toolExists toolCall.functionName tools = false then
          { messages := messages, store := store, toolsRequest := some messages,
            warnings := ["Warning: Tool " ++ toolCall.functionName ++
              " does not exist. Continuing with standard chat..."] }
        else
          match env.callTool toolCall.functionName toolCall.arguments with
          | Except.error e =>
            { messages := messages, store := store, toolsRequest := some messages,
              warnings := ["Tool call failed: " ++ e] }
          | Except.ok contentFromTool =>
            let ackMsg : Message :=
              { role := RoleAssistant,
                content := "I used " ++ toolCall.functionName ++ " and got this result:" }
            let resultMsg : Message := { role := RoleUser, content := contentFromTool }
            let step1 :=
              match trySave store env.saveAckId ackMsg with
              | Except.error e => (store, ["Tool call failed: " ++ e])
              | Except.ok s => (s, [])
            let step2 :=
              match trySave step1.1 env.saveResultId resultMsg with
              | Except.error e => (step1.1, ["Tool result failed: " ++ e])
              | Except.ok s => (s, [])
            { messages := messages ++ [ackMsg, resultMsg], store := step2.1,
              toolsRequest := some messages, warnings := step1.2 ++ step2.2 }
  else
    { messages := messages, store := store, toolsRequest := none, warnings := [] }

/-- External outcomes seen by one processed turn: the user-message save
(src/main.go line 229), the gate's environment, the streamed chat response
(the fragments delivered to the callback in order, then an optional transport
error, lines 334-343), and the assistant-response save (line 346). -/
structure TurnEnv where
  saveUserId : Except String String
  gate : GateEnv
  streamFragments : List String
  streamError : Option String
  saveAssistantId : Except String String

/-- Result of one processed turn: final store, the two outbound requests (the
window sent to the tools model, the window sent to the streaming chat), the
fragments emitted to the terminal, warnings, and the fatal error if the turn
terminated the process. -/
structure TurnOutcome where
  store : MemoryMessages
  toolsRequest : Option (List Message)
  chatRequest : Option (List Message)
  emitted : List String
  warnings : List String
  fatal : Option String
deriving Repr

/-- One processed turn of the session loop (src/main.go lines 229-353): save
the user message (failure is fatal), rebuild the window from the full history,
run the tool gate, stream the chat response while emitting fragments (transport
failure is fatal), and save the accumulated assistant response (failure is
fatal). -/
def processTurn (systemPrompt : String) (tools : List Tool) (env : TurnEnv)
    (store : MemoryMessages) (userInput : String) : TurnOutcome :=
  match trySave store env.saveUserId { role := RoleUser, content := userInput } with
  | Except.error e =>
    { store := store, toolsRequest := none, chatRequest := none, emitted := [],
      warnings := [], fatal := some ("Failed to save user message: " ++ e) }
  | Except.ok store1 =>
    let messages := buildWindow systemPrompt (GetAllMessages store1)
    let g := toolGate tools env.gate store1 messages
    match env.streamError with
    | some e =>
      { store := g.store, toolsRequest := g.toolsRequest, chatRequest := some g.messages,
        emitted := env.streamFragments, warnings := g.warnings,
        fatal := some ("Failed to get response from LLM: " ++ e) }
    | none =>
      match trySave g.store env.saveAssistantId
          { role := RoleAssistant, content := String.join env.streamFragments } with
      | Except.error e =>
        { store := g.store, toolsRequest := g.toolsRequest,
          chatRequest := some g.messages, emitted := env.streamFragments,
          warnings := g.warnings,
          fatal := some ("Failed to save assistant response: " ++ e) }
      | Except.ok store2 =>
        { store := store2, toolsRequest := g.toolsRequest,
          chatRequest := some g.messages, emitted := env.streamFragments,
          warnings := g.warnings, fatal := none }

/-- Result of one iteration of the session loop, including the quit and blank
cases. -/
structure StepOutcome where
  store : MemoryMessages
  halt : Bool
  farewell : Option String
  toolsRequest : Option (List Message)
  chatRequest : Option (List Message)
  emitted : List String
  warnings : List String
  fatal : Option String
deriving Repr

/-- One iteration of the session loop on a read input line (src/main.go lines
215-354): an exact `exit` or `quit` breaks out of the loop and the farewell is
printed (line 356); a whitespace-only line is skipped; anything else is a
processed turn. -/
def sessionStep (systemPrompt : String) (tools : List Tool) (env : TurnEnv)
    (store : MemoryMessages) (userInput : String) : StepOutcome :=
  if userInput = "exit" ∨ userInput = "quit" then
    { store := store, halt := true, farewell := some "Goodbye!", toolsRequest := none,
      chatRequest := none, emitted := [], warnings := [], fatal := none }
  else if userInput.trim = "" then
    { store := store, halt := false, farewell := none, toolsRequest := none,
      chatRequest := none, emitted := [], warnings := [], fatal := none }
  else
    let o := processTurn systemPrompt tools env store userInput
    { store := o.store, halt := false, farewell := none, toolsRequest := o.toolsRequest,
      chatRequest := o.chatRequest, emitted := o.emitted, warnings := o.warnings,
      fatal := o.fatal }

/-- An MCP server launch descriptor (src/main.go lines 30-34). -/
structure MCPServer where
  name : String
  command : String
  args : List String
deriving DecidableEq, Repr

/-- External outcomes seen by MCP startup: spawning the client process from a
command and arguments (src/main.go line 181), the client handshake
(`Initialize`, line 187), and the tool listing (line 192). -/
structure StartupEnv where
  newClient : String → List String → Except String Unit
  initRes : Except String Unit
  listToolsRes : Except String (List Tool)

/-- Result of MCP startup: the server launched (by name, if any), the tool set
held for the session, warnings printed, and the fatal error if startup
terminated the process. -/
structure StartupOutcome where
  launched : Option String
  tools : List Tool
  warnings : List String
  fatal : Option String
deriving Repr

/-- MCP startup (src/main.go lines 169-205): when the integration is enabled
and at least one server is configured, only the first server is launched; a
spawn failure or a tool-listing failure warns and continues with no tools,
while a handshake failure is fatal (line 189). -/
def mcpStartup (enableMCP : Bool) (servers : List MCPServer) (env : StartupEnv) :
    StartupOutcome :=
  match enableMCP, servers with
  | true, server :: _ =>
    match env.newClient server.command server.args with
    | Except.error e =>
      { launched := some server.name, tools := [],
        warnings := ["Warning: Failed to initialize MCP client: " ++ e,
          "Continuing without MCP tools support."],
        fatal := none }
    | Except.ok _ =>
      match env.initRes with
      | Except.error e =>
        { launched := some server.name, tools := [], warnings := [],
          fatal := some ("Failed to initialize MCP client " ++ e) }
      | Except.ok _ =>
        match env.listToolsRes with
        | Except.error e =>
          { launched := some server.name, tools := [],
            warnings := ["Warning: Failed to get MCP tools: " ++ e], fatal := none }
        | Except.ok tools =>
          { launched := some server.name, tools := tools, warnings := [], fatal := none }
  | true, [] =>
    { launched := none, tools := [],
      warnings := ["MCP enabled but no servers specified in config. Continuing without MCP tools support."],
      fatal := none }
  | false, _ =>
    { launched := none, tools := [], warnings := [], fatal := none }

/-- `getEnv` (src/main.go lines 85-91); the environment lookup itself is
external, so the looked-up value is a parameter. -/
def getEnv (value : String) (defaultValue : String) : String :=
  if value = "" then defaultValue else value

/-- ASCII lowercasing of one character, as `strings.ToLower` acts on the
letters relevant to the "true" comparison. -/
def toLowerChar (c : Char) : Char :=
  if c.isUpper then Char.ofNat (c.toNat + 32) else c

/-- `strings.ToLower` (Go standard library), modelled on ASCII letters. -/
def strToLower (s : String) : String :=
  String.mk (s.data.map toLowerChar)

/-- `getEnvBool` (src/main.go lines 93-99): an empty value keeps the default,
any other value is compared, lowercased, against "true". -/
def getEnvBool (value : String) (defaultValue : Bool) : Bool :=
  if value = "" then defaultValue else strToLower value = "true"

/-- `getEnvFloat` (src/main.go lines 101-112). Scanning the decimal value with
`fmt.Sscanf` is external library behaviour and float64 values are opaque here,
so the parser is a parameter producing an abstract value: an empty value or a
scan error keeps the default. -/
def getEnvFloat {F : Type} (parseFloat : String → Option F) (value : String)
    (defaultValue : F) : F :=
  if value = "" then defaultValue
  else
    match parseFloat value with
    | none => defaultValue
    | some result => result

/-- `getEnvInt` (src/main.go lines 114-125), with the `fmt.Sscanf` integer scan
as a parameter: an empty value or a scan error keeps the default. -/
def getEnvInt (parseInt : String → Option Int) (value : String)
    (defaultValue : Int) : Int :=
  if value = "" then defaultValue
  else
    match parseInt value with
    | none => defaultValue
    | some result => result

theorem hasId_append (s t : MemoryMessages) (id : String) :
    hasId (s ++ t) id = (hasId s id || hasId t id) := by
  simp [hasId, List.any_append]

theorem saveAll_ok (entries : List (String × Message)) :
    ∀ store : MemoryMessages,
      (∀ p ∈ entries, hasId store p.1 = false) →
      (entries.map Prod.fst).Nodup →
      saveAll store entries = Except.ok (store ++ entries) := by
  induction entries with
  | nil =>
    intro store _ _
    simp [saveAll]
  | cons p rest ih =>
    intro store hdisj hnodup
    obtain ⟨id, msg⟩ := p
    rw [List.map_cons, List.nodup_cons] at hnodup
    have h1 : hasId store id = false := hdisj (id, msg) (List.mem_cons_self _ _)
    have hstep : SaveMessage store id msg = Except.ok (store ++ [(id, msg)]) := by
      simp [SaveMessage, h1]
    simp only [saveAll, hstep]
    rw [ih (store ++ [(id, msg)]) ?_ hnodup.2]
    · rw [List.append_assoc]
      rfl
    · intro q hq
      rw [hasId_append]
      have hqs : hasId store q.1 = false := hdisj q (List.mem_cons_of_mem _ hq)
      have hqid : ¬ id = q.1 := by
        intro h
        apply hnodup.1
        rw [h]
        exact List.mem_map.mpr ⟨q, hq, rfl⟩
      rw [hqs]
      simp [hasId, hqid]

/-- Claim C1: for every sequence of N messages saved to the Conversation Store
under its synthetic (pairwise-distinct) identifiers, a subsequent retrieval of
all messages returns exactly those N messages in the order they were saved. -/
theorem conversation_store_preserves_order (entries : List (String × Message))
    (hnodup : (entries.map Prod.fst).Nodup) :
    saveAll [] entries = Except.ok entries ∧
    GetAllMessages entries = entries.map Prod.snd := by
  constructor
  · simpa using saveAll_ok entries [] (fun p _ => rfl) hnodup
  · rfl

/-- Concrete instance of the store ordering invariant at two saved messages. -/
theorem conversation_store_preserves_order_witness :
    saveAll [] [("100", { role := "user", content := "a" }),
        ("200", { role := "user", content := "b" })] =
      Except.ok [("100", { role := "user", content := "a" }),
        ("200", { role := "user", content := "b" })] ∧
    GetAllMessages [("100", { role := "user", content := "a" }),
        ("200", { role := "user", content := "b" })] =
      [{ role := "user", content := "a" }, { role := "user", content := "b" }] :=
  conversation_store_preserves_order _ (by decide)

/-- Claim C2: for every non-negative limit the window selector returns
min(limit, history length) + 1 messages, the first being the synthetic system
message built from the configured prompt and the rest the last `limit` entries
of the history in original order; for every negative limit it returns the
system message followed by the entire history. -/
theorem window_selector_bound (systemPrompt : String) (limit : Int)
    (msgs : List Message) :
    (0 ≤ limit →
      selectWindow systemPrompt limit msgs =
        { role := RoleSystem, content := systemPrompt } ::
          msgs.drop (msgs.length - limit.toNat) ∧
      (selectWindow systemPrompt limit msgs).length =
        min limit.toNat msgs.length + 1) ∧
    (limit < 0 →
      selectWindow systemPrompt limit msgs =
        { role := RoleSystem, content := systemPrompt } :: msgs) := by
  constructor
  · intro hle
    have hnotneg : ¬ limit < 0 := not_lt.mpr hle
    have h1 : selectWindow systemPrompt limit msgs =
        { role := RoleSystem, content := systemPrompt } ::
          msgs.drop (msgs.length - limit.toNat) := by
      unfold selectWindow getLastMessages
      rw [if_neg hnotneg]
      by_cases h : (msgs.length : Int) ≤ limit
      · rw [if_pos h]
        have hz : msgs.length - limit.toNat = 0 := by omega
        rw [hz, List.drop_zero]
      · rw [if_neg h]
    refine ⟨h1, ?_⟩
    rw [h1]
    simp only [List.length_cons, List.length_drop]
    omega
  · intro hneg
    unfold selectWindow getLastMessages
    rw [if_pos hneg]

/-- Concrete instances of the window selector bound, at limit 2 over a
three-message history and at limit -1. -/
theorem window_selector_bound_witness :
    (selectWindow "p" 2 [{ role := "user", content := "a" },
        { role := "user", content := "b" }, { role := "user", content := "c" }]).length =
      min (Int.toNat 2) 3 + 1 ∧
    selectWindow "p" (-1) [{ role := "user", content := "a" }] =
      [{ role := RoleSystem, content := "p" }, { role := "user", content := "a" }] :=
  ⟨((window_selector_bound "p" 2 _).1 (by decide)).2,
    (window_selector_bound "p" (-1) _).2 (by decide)⟩

/-- Claim C8: an input line exactly equal to exit or quit halts the session
loop without processing the turn: the store is unchanged, no chat request is
issued, nothing is emitted, and the farewell is produced. -/
theorem quit_halts_without_processing (systemPrompt : String) (tools : List Tool)
    (env : TurnEnv) (store : MemoryMessages) (userInput : String)
    (h : userInput = "exit" ∨ userInput = "quit") :
    sessionStep systemPrompt tools env store userInput =
      { store := store, halt := true, farewell := some "Goodbye!", toolsRequest := none,
        chatRequest := none, emitted := [], warnings := [], fatal := none } := by
  unfold sessionStep
  rw [if_pos h]

/-- A gate environment in which no tool call is proposed. -/
def idleGateEnv : GateEnv :=
  { toolsAnswer := Except.ok [], callTool := fun _ _ => Except.error "no transport",
    saveAckId := Except.error "unused", saveResultId := Except.error "unused" }

/-- A turn environment with every external outcome fixed, for concrete
instances. -/
def idleTurnEnv : TurnEnv :=
  { saveUserId := Except.ok "1", gate := idleGateEnv, streamFragments := [],
    streamError := none, saveAssistantId := Except.ok "2" }

/-- Concrete instance: the line quit halts the loop untouched. -/
theorem quit_halts_without_processing_witness :
    sessionStep "p" [] idleTurnEnv [] "quit" =
      { store := [], halt := true, farewell := some "Goodbye!", toolsRequest := none,
        chatRequest := none, emitted := [], warnings := [], fatal := none } :=
  quit_halts_without_processing "p" [] idleTurnEnv [] "quit" (Or.inr rfl)

/-- Claim C9: when MCP is enabled with configured servers, only the first is
launched and queried for tools; the startup outcome is identical under any
replacement of the remaining server entries. -/
theorem only_first_mcp_server_used (server : MCPServer) (rest rest2 : List MCPServer)
    (env : StartupEnv) :
    mcpStartup true (server :: rest) env = mcpStartup true (server :: rest2) env ∧
    (mcpStartup true (server :: rest) env).launched = some server.name := by
  constructor
  · rfl
  · cases h1 : env.newClient server.command server.args with
    | error e => simp [mcpStartup, h1]
    | ok u =>
      cases h2 : env.initRes with
      | error e => simp [mcpStartup, h1, h2]
      | ok u2 =>
        cases h3 : env.listToolsRes with
        | error e => simp [mcpStartup, h1, h2, h3]
        | ok tools => simp [mcpStartup, h1, h2, h3]

/-- Claim C10: numeric environment overrides fall back to the configured value
when the variable is empty or unparseable, while the boolean flag treats any
non-empty value other than case-insensitive true as false, overriding the
configured value. -/
theorem env_override_asymmetry :
    (∀ (parseInt : String → Option Int) (value : String) (d : Int),
      value = "" ∨ parseInt value = none → getEnvInt parseInt value d = d) ∧
    (∀ (F : Type) (parseFloat : String → Option F) (value : String) (d : F),
      value = "" ∨ parseFloat value = none → getEnvFloat parseFloat value d = d) ∧
    (∀ (value : String) (d : Bool),
      value ≠ "" → strToLower value ≠ "true" → getEnvBool value d = false) := by
  refine ⟨?_, ?_, ?_⟩
  · intro parseInt value d h
    unfold getEnvInt
    rcases h with h | h
    · rw [if_pos h]
    · by_cases hv : value = ""
      · rw [if_pos hv]
      · rw [if_neg hv, h]
  · intro F parseFloat value d h
    unfold getEnvFloat
    rcases h with h | h
    · rw [if_pos h]
    · by_cases hv : value = ""
      · rw [if_pos hv]
      · rw [if_neg hv, h]
  · intro value d h1 h2
    unfold getEnvBool
    rw [if_neg h1]
    simp [h2]

/-- Concrete instances of the override asymmetry: an unparseable numeric value
keeps the default, a non-empty non-true boolean value forces false. -/
theorem env_override_asymmetry_witness :
    getEnvInt (fun _ => none) "abc" 7 = 7 ∧
    getEnvFloat (fun _ => none) "abc" (3 : Int) = 3 ∧
    getEnvBool "FALSE" true = false := by
  refine ⟨?_, ?_, ?_⟩
  · exact env_override_asymmetry.1 (fun _ => none) "abc" 7 (Or.inr rfl)
  · exact env_override_asymmetry.2.1 Int (fun _ => none) "abc" 3 (Or.inr rfl)
  · exact env_override_asymmetry.2.2 "FALSE" true (by decide) (by decide)

theorem toolGate_error_unchanged (tools : List Tool) (genv : GateEnv)
    (herr :
      (∃ e, genv.toolsAnswer = Except.error e) ∨
      (∃ c rest, genv.toolsAnswer = Except.ok (c :: rest) ∧
        toolExists c.functionName tools = false) ∨
      (∃ c rest e, genv.toolsAnswer = Except.ok (c :: rest) ∧
        toolExists c.functionName tools = true ∧
        genv.callTool c.functionName c.arguments = Except.error e)) :
    ∀ (store : MemoryMessages) (messages : List Message),
      (toolGate tools genv store messages).messages = messages ∧
      (toolGate tools genv store messages).store = store ∧
      (tools ≠ [] → (toolGate tools genv store messages).warnings ≠ []) := by
  intro store messages
  by_cases htools : 0 < tools.length
  · rcases herr with ⟨e, he⟩ | ⟨c, rest, he, hex⟩ | ⟨c, rest, e, he, hex, hcall⟩
    · simp [toolGate, if_pos htools, he]
    · simp [toolGate, if_pos htools, he, hex]
    · simp [toolGate, if_pos htools, he, hex, hcall]
  · have hnil : tools = [] := by
      cases tools with
      | nil => rfl
      | cons a b => exact absurd (by simp) htools
    subst hnil
    simp [toolGate]

theorem processTurn_chatRequest (systemPrompt : String) (tools : List Tool)
    (env : TurnEnv) (st store1 : MemoryMessages) (userInput : String)
    (husave : trySave st env.saveUserId { role := RoleUser, content := userInput } =
      Except.ok store1) :
    (processTurn systemPrompt tools env st userInput).chatRequest =
      some ((toolGate tools env.gate store1
        (buildWindow systemPrompt (GetAllMessages store1))).messages) := by
  simp only [processTurn, husave]
  cases env.streamError with
  | some e => rfl
  | none =>
    cases trySave (toolGate tools env.gate store1
        (buildWindow systemPrompt (GetAllMessages store1))).store env.saveAssistantId
        { role := RoleAssistant, content := String.join env.streamFragments } with
    | error e => rfl
    | ok s2 => rfl

/-- Claim C4: a tools-model request failure, an unknown first proposed tool, or
a failed tool invocation leaves the bounded window and the store unchanged and
produces a warning; the turn still proceeds to the normal chat call with that
window, and whether the session terminates depends only on the streaming chat
and the remaining saves, never on these gate conditions. -/
theorem tool_gate_errors_recoverable (tools : List Tool) (genv : GateEnv)
    (store : MemoryMessages) (messages : List Message)
    (htools : tools ≠ [])
    (herr :
      (∃ e, genv.toolsAnswer = Except.error e) ∨
      (∃ c rest, genv.toolsAnswer = Except.ok (c :: rest) ∧
        toolExists c.functionName tools = false) ∨
      (∃ c rest e, genv.toolsAnswer = Except.ok (c :: rest) ∧
        toolExists c.functionName tools = true ∧
        genv.callTool c.functionName c.arguments = Except.error e)) :
    (toolGate tools genv store messages).messages = messages ∧
    (toolGate tools genv store messages).store = store ∧
    (toolGate tools genv store messages).warnings ≠ [] ∧
    ∀ (env : TurnEnv) (systemPrompt userInput : String) (st store1 : MemoryMessages),
      env.gate = genv →
      trySave st env.saveUserId { role := RoleUser, content := userInput } =
        Except.ok store1 →
      (processTurn systemPrompt tools env st userInput).chatRequest =
        some (buildWindow systemPrompt (GetAllMessages store1)) ∧
      ((processTurn systemPrompt tools env st userInput).fatal = none ↔
        (env.streamError = none ∧
          ∃ s2, trySave store1 env.saveAssistantId
            { role := RoleAssistant, content := String.join env.streamFragments } =
              Except.ok s2)) := by
  obtain ⟨hm, hs, hw⟩ := toolGate_error_unchanged tools genv herr store messages
  refine ⟨hm, hs, hw htools, ?_⟩
  intro env systemPrompt userInput st store1 hgate husave
  obtain ⟨hm1, hs1, _⟩ := toolGate_error_unchanged tools genv herr store1
    (buildWindow systemPrompt (GetAllMessages store1))
  constructor
  · rw [processTurn_chatRequest systemPrompt tools env st store1 userInput husave,
      hgate, hm1]
  · simp only [processTurn, husave, hgate, hs1]
    cases henv : env.streamError with
    | some e => simp
    | none =>
      cases hsave : trySave store1 env.saveAssistantId
          { role := RoleAssistant, content := String.join env.streamFragments } with
      | error e => simp [hsave]
      | ok s2 => simp [hsave]

/-- A single known tool named A, for concrete instances. -/
def toolA : Tool := { function := { name := "A" } }

/-- A gate environment whose tools-model request fails. -/
def badGateEnv : GateEnv :=
  { toolsAnswer := Except.error "boom", callTool := fun _ _ => Except.error "down",
    saveAckId := Except.error "unused", saveResultId := Except.error "unused" }

/-- Concrete instance: a failed tools-model request leaves window and store
unchanged and warns. -/
theorem tool_gate_errors_recoverable_witness :
    (toolGate [toolA] badGateEnv [] []).messages = [] ∧
    (toolGate [toolA] badGateEnv [] []).store = [] ∧
    (toolGate [toolA] badGateEnv [] []).warnings ≠ [] := by
  have h := tool_gate_errors_recoverable [toolA] badGateEnv [] []
    (by decide) (Or.inl ⟨"boom", rfl⟩)
  exact ⟨h.1, h.2.1, h.2.2.1⟩

theorem toolGate_head_only (tools : List Tool) (env env2 : GateEnv)
    (store : MemoryMessages) (messages : List Message) (c : ToolCall)
    (rest rest2 : List ToolCall)
    (h1 : env.toolsAnswer = Except.ok (c :: rest))
    (h2 : env2.toolsAnswer = Except.ok (c :: rest2))
    (hc : env.callTool = env2.callTool) (ha : env.saveAckId = env2.saveAckId)
    (hr : env.saveResultId = env2.saveResultId) :
    toolGate tools env store messages = toolGate tools env2 store messages := by
  simp only [toolGate, h1, h2, hc, ha, hr]

/-- Claim C5: when the tool gate proposes tool calls only the first is
considered; when that call names a known tool and the invocation succeeds,
exactly two new messages are appended to the store — the assistant
acknowledgment naming the tool and a user-role message carrying the raw result
— and both are appended to the window handed to the immediately following chat
request. -/
theorem tool_gate_success_appends_two (tools : List Tool) (genv : GateEnv)
    (store : MemoryMessages) (messages : List Message) (c : ToolCall)
    (rest : List ToolCall) (text id1 id2 : String)
    (htools : tools ≠ [])
    (hans : genv.toolsAnswer = Except.ok (c :: rest))
    (hknown : toolExists c.functionName tools = true)
    (hcall : genv.callTool c.functionName c.arguments = Except.ok text)
    (hid1 : genv.saveAckId = Except.ok id1)
    (hid2 : genv.saveResultId = Except.ok id2)
    (hfresh1 : hasId store id1 = false)
    (hfresh2 : hasId store id2 = false)
    (hne : id1 ≠ id2) :
    (toolGate tools genv store messages).messages =
      messages ++
        [{ role := RoleAssistant,
           content := "I used " ++ c.functionName ++ " and got this result:" },
         { role := RoleUser, content := text }] ∧
    (toolGate tools genv store messages).store =
      store ++
        [(id1, { role := RoleAssistant,
                 content := "I used " ++ c.functionName ++ " and got this result:" }),
         (id2, { role := RoleUser, content := text })] ∧
    (toolGate tools genv store messages).warnings = [] ∧
    (∀ rest2 : List ToolCall,
      toolGate tools
        { toolsAnswer := Except.ok (c :: rest2), callTool := genv.callTool,
          saveAckId := genv.saveAckId, saveResultId := genv.saveResultId }
        store messages =
      toolGate tools genv store messages) ∧
    (∀ (env : TurnEnv) (systemPrompt userInput : String) (st store1 : MemoryMessages),
      env.gate = genv →
      trySave st env.saveUserId { role := RoleUser, content := userInput } =
        Except.ok store1 →
      (processTurn systemPrompt tools env st userInput).chatRequest =
        some ((toolGate tools genv store1
          (buildWindow systemPrompt (GetAllMessages store1))).messages)) := by
  have hpos : 0 < tools.length := by
    cases tools with
    | nil => exact absurd rfl htools
    | cons a b => simp
  have hcond : ¬ toolExists c.functionName tools = false := by simp [hknown]
  have hsecond : hasId (store ++ [(id1,
      { role := RoleAssistant,
        content := "I used " ++ c.functionName ++ " and got this result:" })]) id2 =
      false := by
    rw [hasId_append, hfresh2]
    simp [hasId]
    exact hne
  have hmain :
      toolGate tools genv store messages =
        { messages := messages ++
            [{ role := RoleAssistant,
               content := "I used " ++ c.functionName ++ " and got this result:" },
             { role := RoleUser, content := text }],
          store := store ++
            [(id1, { role := RoleAssistant,
                     content := "I used " ++ c.functionName ++ " and got this result:" }),
             (id2, { role := RoleUser, content := text })],
          toolsRequest := some messages, warnings := [] } := by
    simp only [toolGate, if_pos hpos, hans, if_neg hcond, hcall, hid1, hid2, trySave,
      SaveMessage, hfresh1, hsecond]
    simp [List.append_assoc, hsecond]
  refine ⟨by rw [hmain], by rw [hmain], by rw [hmain], ?_, ?_⟩
  · intro rest2
    exact toolGate_head_only tools
      { toolsAnswer := Except.ok (c :: rest2), callTool := genv.callTool,
        saveAckId := genv.saveAckId, saveResultId := genv.saveResultId }
      genv store messages c rest2 rest rfl hans rfl rfl rfl
  · intro env systemPrompt userInput st store1 hgate husave
    rw [processTurn_chatRequest systemPrompt tools env st store1 userInput husave, hgate]

/-- A gate environment proposing a successful call to the known tool A. -/
def okGateEnv : GateEnv :=
  { toolsAnswer := Except.ok [{ functionName := "A", arguments := "" }],
    callTool := fun _ _ => Except.ok "42",
    saveAckId := Except.ok "10", saveResultId := Except.ok "11" }

/-- Concrete instance: a successful call to tool A returning 42 appends the
acknowledgment and the raw result to both window and store. -/
theorem tool_gate_success_appends_two_witness :
    (toolGate [toolA] okGateEnv [] []).messages =
      [{ role := RoleAssistant, content := "I used A and got this result:" },
       { role := RoleUser, content := "42" }] ∧
    (toolGate [toolA] okGateEnv [] []).store =
      [("10", { role := RoleAssistant, content := "I used A and got this result:" }),
       ("11", { role := RoleUser, content := "42" })] ∧
    (toolGate [toolA] okGateEnv [] []).warnings = [] := by
  have h := tool_gate_success_appends_two [toolA] okGateEnv [] []
    { functionName := "A", arguments := "" } [] "42" "10" "11"
    (by decide) rfl (by decide) rfl rfl rfl rfl rfl (by decide)
  exact ⟨h.1, h.2.1, h.2.2.1⟩

/-- A gate environment whose tool call succeeds but whose two tool-result
saves fail with a storage error. -/
def failingSaveGateEnv : GateEnv :=
  { toolsAnswer := Except.ok [{ functionName := "A", arguments := "" }],
    callTool := fun _ _ => Except.ok "42",
    saveAckId := Except.error "disk full", saveResultId := Except.error "disk full" }

/-- A turn environment in which the only failing external outcomes are the two
tool-result saves. -/
def failingSaveTurnEnv : TurnEnv :=
  { saveUserId := Except.ok "1", gate := failingSaveGateEnv,
    streamFragments := ["ok"], streamError := none,
    saveAssistantId := Except.ok "2" }

/-- Counterexample to claim C6: in a turn whose two tool-result saves fail,
the failures are reported only as warnings and the session does not
terminate. -/
theorem save_failure_not_fatal_counterexample :
    (processTurn "p" [toolA] failingSaveTurnEnv [] "what").warnings =
      ["Tool call failed: disk full", "Tool result failed: disk full"] ∧
    (processTurn "p" [toolA] failingSaveTurnEnv [] "what").fatal = none := by decide

/-- Claim C6 amended: during the loop a failure saving the user message or the
final assistant response is fatal for the session, but a failure saving either
of the two tool-result messages after a successful tool invocation only
produces a warning and the session continues. -/
theorem save_failures_amended (systemPrompt userInput : String) (tools : List Tool)
    (env : TurnEnv) (store : MemoryMessages) :
    (∀ e, trySave store env.saveUserId { role := RoleUser, content := userInput } =
        Except.error e →
      (processTurn systemPrompt tools env store userInput).fatal =
        some ("Failed to save user message: " ++ e)) ∧
    (∀ store1 e,
      trySave store env.saveUserId { role := RoleUser, content := userInput } =
        Except.ok store1 →
      env.streamError = none →
      trySave (toolGate tools env.gate store1
          (buildWindow systemPrompt (GetAllMessages store1))).store
        env.saveAssistantId
        { role := RoleAssistant, content := String.join env.streamFragments } =
        Except.error e →
      (processTurn systemPrompt tools env store userInput).fatal =
        some ("Failed to save assistant response: " ++ e)) ∧
    (∀ store1 s2,
      trySave store env.saveUserId { role := RoleUser, content := userInput } =
        Except.ok store1 →
      env.streamError = none →
      trySave (toolGate tools env.gate store1
          (buildWindow systemPrompt (GetAllMessages store1))).store
        env.saveAssistantId
        { role := RoleAssistant, content := String.join env.streamFragments } =
        Except.ok s2 →
      (processTurn systemPrompt tools env store userInput).fatal = none) := by
  refine ⟨?_, ?_, ?_⟩
  · intro e h
    simp only [processTurn, h]
  · intro store1 e h1 h2 h3
    simp only [processTurn, h1, h2, h3]
  · intro store1 s2 h1 h2 h3
    simp only [processTurn, h1, h2, h3]

/-- Concrete instances: the failing tool-result saves do not end the session,
while a failing user-message save does. -/
theorem save_failures_amended_witness :
    (processTurn "p" [toolA] failingSaveTurnEnv [] "what").fatal = none ∧
    (processTurn "p" [toolA]
        { failingSaveTurnEnv with saveUserId := Except.error "disk full" }
        [] "what").fatal =
      some "Failed to save user message: disk full" := by
  constructor
  · exact (save_failures_amended "p" "what" [toolA] failingSaveTurnEnv []).2.2 _ _
      rfl rfl rfl
  · exact (save_failures_amended "p" "what" [toolA]
      { failingSaveTurnEnv with saveUserId := Except.error "disk full" } []).1
      "disk full" rfl

/-- The store as seeded at startup with the system prompt Be brief
(src/main.go lines 161-164). -/
def briefStore : MemoryMessages := [("0", { role := "system", content := "Be brief" })]

/-- The turn environment of the end-to-end scenario: no tool activity, streamed
fragments Hi and !, all saves succeeding. -/
def briefTurnEnv : TurnEnv :=
  { saveUserId := Except.ok "1", gate := idleGateEnv,
    streamFragments := ["Hi", "!"], streamError := none,
    saveAssistantId := Except.ok "2" }

/-- Counterexample to claim C3: with system prompt Be brief, no tools and user
input hello, the chat backend does not receive the two-message sequence
[system Be brief, user hello] — the window also repeats the seeded system
message stored at startup. -/
theorem chat_scenario_two_messages_counterexample :
    (processTurn "Be brief" [] briefTurnEnv briefStore "hello").chatRequest ≠
      some [{ role := "system", content := "Be brief" },
        { role := "user", content := "hello" }] := by decide

/-- Claim C3 amended: in that scenario the chat backend receives three
messages — the synthetic system message, the stored seeded system message and
the user message — the streamed fragments Hi and ! are emitted in order, and
the store ends with an assistant message Hi!. -/
theorem chat_scenario_amended :
    (processTurn "Be brief" [] briefTurnEnv briefStore "hello").chatRequest =
      some [{ role := "system", content := "Be brief" },
        { role := "system", content := "Be brief" },
        { role := "user", content := "hello" }] ∧
    (processTurn "Be brief" [] briefTurnEnv briefStore "hello").emitted =
      ["Hi", "!"] ∧
    GetAllMessages (processTurn "Be brief" [] briefTurnEnv briefStore "hello").store =
      [{ role := "system", content := "Be brief" },
       { role := "user", content := "hello" },
       { role := "assistant", content := "Hi!" }] ∧
    (processTurn "Be brief" [] briefTurnEnv briefStore "hello").fatal = none := by
  decide

/-- A startup environment whose client spawn succeeds but whose MCP handshake
fails. -/
def initFailStartupEnv : StartupEnv :=
  { newClient := fun _ _ => Except.ok (), initRes := Except.error "handshake",
    listToolsRes := Except.ok [] }

/-- The weather server of the example configuration. -/
def weatherServer : MCPServer :=
  { name := "weather", command := "python", args := ["-m", "weather_tool"] }

/-- Counterexample to claim C7: a failure of the MCP handshake after the
client process is spawned aborts the session. -/
theorem mcp_startup_failure_counterexample :
    (mcpStartup true [weatherServer] initFailStartupEnv).fatal ≠ none := by decide

/-- Claim C7 amended: a failure spawning the MCP client or listing its tools
degrades the session to running with no tools and does not abort, but a
failure of the client handshake after the process is spawned is fatal. -/
theorem mcp_startup_amended (server : MCPServer) (rest : List MCPServer)
    (env : StartupEnv) :
    ((∃ e, env.newClient server.command server.args = Except.error e) →
      (mcpStartup true (server :: rest) env).fatal = none ∧
      (mcpStartup true (server :: rest) env).tools = []) ∧
    (env.newClient server.command server.args = Except.ok () →
      env.initRes = Except.ok () →
      (∃ e, env.listToolsRes = Except.error e) →
      (mcpStartup true (server :: rest) env).fatal = none ∧
      (mcpStartup true (server :: rest) env).tools = []) ∧
    (env.newClient server.command server.args = Except.ok () →
      (∃ e, env.initRes = Except.error e) →
      ∃ m, (mcpStartup true (server :: rest) env).fatal = some m) := by
  refine ⟨?_, ?_, ?_⟩
  · rintro ⟨e, he⟩
    constructor <;> simp [mcpStartup, he]
  · rintro h1 h2 ⟨e, he⟩
    constructor <;> simp [mcpStartup, h1, h2, he]
  · rintro h1 ⟨e, he⟩
    exact ⟨"Failed to initialize MCP client " ++ e, by simp [mcpStartup, h1, he]⟩

/-- Concrete instance: the handshake failure after a successful spawn is
fatal. -/
theorem mcp_startup_amended_witness :
    ∃ m, (mcpStartup true [weatherServer] initFailStartupEnv).fatal = some m :=
  (mcp_startup_amended weatherServer [] initFailStartupEnv).2.2 rfl ⟨"handshake", rfl⟩
